import Mathlib

/-!
Shallow embedding of `pims/display.py` (the image-sequence export and
colorization pipeline): the `export` orchestration (first-frame stream
configuration, per-frame shape canonicalization, dtype gating, brightness
autoscaling), the `_normalize` / `_estimate_bitrate` helpers, the
`wavelength_to_rgb` spectral color map and the `to_rgb` multichannel
compositor.

Modelling conventions:
* numpy arrays become `NDArray`: a shape (list of axis lengths) together
  with a total data function on multi-indices; indices outside the shape
  carry junk values that no operation below ever reads for an in-range
  computation (reductions such as `amax` only visit `indicesOf shape`);
* Python floats become `ℚ` where the source only adds, subtracts,
  multiplies and divides, and `ℝ` where the source takes real powers
  (`** gamma` in `wavelength_to_rgb`);
* `astype('uint8')` / `np.uint8` on the nonnegative in-range values the
  source produces is truncation toward zero, i.e. `Nat.floor`;
* a float division whose divisor is zero produces NaN in numpy; we track
  the divisor explicitly (`exportAutoscaleDenom`) and model NaN-valued
  pixels as `none` in `Option`-valued output data;
* a Python `raise` becomes `Except.error` with a constructor per error
  class used by the source.
-/

namespace PimsDisplay

/-- Error classes raised by `display.py`: `ValueError("Images have the wrong
shape.")`, the `ValueError` demanding autoscale for non-uint8 data, the
`IndexError('Not enough wavelength values to build rgb image')`, and the
`UnboundLocalError` that accessing the undefined loop variable `i` in
`to_rgb`'s single-channel branch raises. -/
inductive PyErr where
  | shapeError
  | typeMismatch
  | insufficientTints
  | unboundLocalError
deriving DecidableEq

/-- Element type tag of a numpy array, as far as the embedding needs it. -/
inductive Dtype where
  | uint8
  | uint16
  | float64
deriving DecidableEq

/-- An N-dimensional numpy array: axis lengths plus a total assignment of a
rational value to every multi-index.  Only indices in `indicesOf shape` are
meaningful; reductions below visit exactly those. -/
@[ext]
structure NDArray where
  shape : List ℕ
  data : List ℕ → ℚ
  dtype : Dtype

/-- An array whose entries may be NaN (`none`), produced by the unguarded
float divisions in the source. -/
structure OptArray where
  shape : List ℕ
  data : List ℕ → Option ℚ

/-- All valid multi-indices of a shape, in row-major order. -/
def indicesOf : List ℕ → List (List ℕ)
  | [] => [[]]
  | d :: ds => (List.range d).flatMap (fun i => (indicesOf ds).map (fun t => i :: t))

/-- Maximum of a list of rationals (`arr.max()`); numpy raises on an empty
array, the `0` default is never consulted by the claims below. -/
def listMaxQ : List ℚ → ℚ
  | [] => 0
  | [x] => x
  | x :: y :: rest => max x (listMaxQ (y :: rest))

/-- Minimum of a list of rationals (`arr.min()`). -/
def listMinQ : List ℚ → ℚ
  | [] => 0
  | [x] => x
  | x :: y :: rest => min x (listMinQ (y :: rest))

/-- Maximum of a list of naturals (`result.max()` on the uint16 accumulator
in `to_rgb`). -/
def listMaxN : List ℕ → ℕ
  | [] => 0
  | [x] => x
  | x :: y :: rest => max x (listMaxN (y :: rest))

/-- The in-range values of an array, in row-major order. -/
def values (img : NDArray) : List ℚ :=
  (indicesOf img.shape).map img.data

/-- Source `arr.max()`. -/
def amax (img : NDArray) : ℚ := listMaxQ (values img)

/-- Source `arr.min()`. -/
def amin (img : NDArray) : ℚ := listMinQ (values img)

/-- Source `np.uint8(x)` / `.astype('uint8')` for the nonnegative in-range
rational values the pipeline feeds it: truncation toward zero. -/
def npUint8Q (x : ℚ) : ℕ := ⌊x⌋₊

/-- Source `np.uint8(x)` for the nonnegative real values `wavelength_to_rgb`
feeds it: truncation toward zero. -/
noncomputable def npUint8R (x : ℝ) : ℕ := ⌊x⌋₊

/-- Source `_normalize`, lines 248-254: `ptp = arr.max() - arr.min()`, with
the flat-image guard `if ptp == 0: ptp = 1`.  This is the denominator it
divides by. -/
def normalizeDenom (img : NDArray) : ℚ :=
  if amax img - amin img = 0 then 1 else amax img - amin img

/-- Source `_normalize`, lines 248-254: `(arr - arr.min()) / ptp` with the
guarded `ptp`.  Returns a float array. -/
def _normalize (img : NDArray) : NDArray :=
  { shape := img.shape
    data := fun idx => (img.data idx - amin img) / normalizeDenom img
    dtype := Dtype.float64 }

/-- Source `_estimate_bitrate`, lines 257-260:
`shape[0] * shape[1] * 8 * 3 * frame_rate`. -/
def _estimate_bitrate (shape : List ℕ) (frame_rate : ℕ) : ℕ :=
  shape.getD 0 0 * shape.getD 1 0 * 8 * 3 * frame_rate

/-- The stream fields `export` assigns from its first frame (lines 56-68).
`bit_rate` is `none` when the caller supplied an explicit bitrate, because
the source assigns `stream.bit_rate` only inside the `if bitrate is None`
branch. -/
structure StreamConfig where
  bit_rate : Option ℕ
  width : ℕ
  height : ℕ
deriving DecidableEq

/-- Source `export`, lines 56-68 (first-frame stream setup).  `width is
None` makes both dimensions come from the raw first-frame shape; otherwise
`stream.height = height or width * img.shape[0] // img.shape[1]`, where
Python's `or` also treats an explicit `height = 0` as unset, and `//` is
floor division. -/
def setupConfig (img : NDArray) (rate : ℕ) (bitrate width height : Option ℕ) :
    StreamConfig :=
  { bit_rate :=
      match bitrate with
      | none => some (_estimate_bitrate img.shape rate)
      | some _ => none
    width :=
      match width with
      | none => img.shape.getD 1 0
      | some w => w
    height :=
      match width with
      | none => img.shape.getD 0 0
      | some w =>
        match height with
        | some h => if h = 0 then w * img.shape.getD 0 0 / img.shape.getD 1 0 else h
        | none => w * img.shape.getD 0 0 / img.shape.getD 1 0 }

/-- Source `img.shape.index(3)` for the rank-3 branch of `export`: index of
the first axis of length 3 (the preceding `count` check guarantees one
exists and is unique). -/
def firstIndexOf3 : List ℕ → ℕ
  | [] => 0
  | d :: ds => if d = 3 then 0 else firstIndexOf3 ds + 1

/-- Source `np.rollaxis(img, color_axis, 3)` on a rank-3 array: move axis
`k` to the last position, keeping the relative order of the other two axes.
Frames whose shape is not a 3-list are returned unchanged (the claims only
exercise rank-3 frames on this path). -/
def rollaxis3 (img : NDArray) (k : ℕ) : NDArray :=
  { shape :=
      match img.shape with
      | [a, b, c] =>
        match k with
        | 0 => [b, c, a]
        | 1 => [a, c, b]
        | _ => [a, b, c]
      | s => s
    data := fun idx =>
      match idx with
      | [i, j, l] =>
        match k with
        | 0 => img.data [l, i, j]
        | 1 => img.data [i, l, j]
        | _ => img.data [i, j, l]
      | other => img.data other
    dtype := img.dtype }

/-- Source `np.rollaxis(arr, 2, k)` on a rank-3 array: move the last axis
back to position `k`.  This is the inverse axis permutation of
`rollaxis3 · k`, used to state the round-trip property. -/
def rollaxisFromLast3 (img : NDArray) (k : ℕ) : NDArray :=
  { shape :=
      match img.shape with
      | [a, b, c] =>
        match k with
        | 0 => [c, a, b]
        | 1 => [a, c, b]
        | _ => [a, b, c]
      | s => s
    data := fun idx =>
      match idx with
      | [i, j, l] =>
        match k with
        | 0 => img.data [j, l, i]
        | 1 => img.data [i, l, j]
        | _ => img.data [i, j, l]
      | other => img.data other
    dtype := img.dtype }

/-- Source `export`, lines 76-79: `np.repeat(np.expand_dims(img, 2), 3,
axis=2)` for a rank-2 frame — three identical color channels. -/
def expandGray (img : NDArray) : NDArray :=
  { shape := img.shape ++ [3]
    data := fun idx =>
      match idx with
      | [i, j, _] => img.data [i, j]
      | other => img.data other
    dtype := img.dtype }

/-- Source `export`, lines 70-81: per-frame shape canonicalization driven by
the `ndim` recorded from the first frame.  Rank 3: exactly one axis of
length 3, rolled to the end; rank 2: grayscale broadcast; anything else:
`ValueError("Images have the wrong shape.")`. -/
def normalizeShape (ndim : ℕ) (img : NDArray) : Except PyErr NDArray :=
  if ndim = 3 then
    if img.shape.count 3 ≠ 1 then Except.error PyErr.shapeError
    else Except.ok (rollaxis3 img (firstIndexOf3 img.shape))
  else if ndim = 2 then Except.ok (expandGray img)
  else Except.error PyErr.shapeError

/-- Source `export`, line 84: the test `img.dtype is not np.uint8` compares
a numpy `dtype` instance against the type object `np.uint8` with Python
object identity, which is false for every array — `np.zeros(1,
dtype=np.uint8).dtype is np.uint8` evaluates to `False`.  This function is
the value of `img.dtype is np.uint8`: constantly `false`, whatever the
dtype. -/
def dtypeIsNpUint8 (d : Dtype) : Bool :=
  match d with
  | _ => false

/-- Source `export`, line 89: the denominator `img.max() - img.min()` of the
inline autoscale normalization.  Unlike `_normalize`, there is no flat-image
guard here. -/
def exportAutoscaleDenom (img : NDArray) : ℚ :=
  amax img - amin img

/-- Source `export`, lines 88-90: `normed = (img - img.min()) / (img.max() -
img.min()); img = (255 * normed).astype('uint8')`.  A zero divisor makes
every pixel NaN in numpy, modelled as `none`. -/
def autoscaleFrame (img : NDArray) : OptArray :=
  { shape := img.shape
    data := fun idx =>
      if exportAutoscaleDenom img = 0 then none
      else some ((npUint8Q (255 * ((img.data idx - amin img) / exportAutoscaleDenom img)) : ℚ)) }

/-- Source `export`, lines 70-90 for one frame: shape canonicalization, the
dtype/autoscale gate, then autoscaling.  The no-autoscale passthrough is
unreachable because the identity test of line 84 never holds. -/
def processOne (ndim : ℕ) (autoscale : Bool) (img : NDArray) : Except PyErr OptArray := do
  let shaped ← normalizeShape ndim img
  if !dtypeIsNpUint8 shaped.dtype && !autoscale then
    Except.error PyErr.typeMismatch
  else if autoscale then
    Except.ok (autoscaleFrame shaped)
  else
    Except.ok { shape := shaped.shape, data := fun idx => some (shaped.data idx) }

/-- The per-frame loop body of `export`, applied to the whole sequence; the
first raised error aborts the iteration. -/
def processFrames (ndim : ℕ) (autoscale : Bool) : List NDArray → Except PyErr (List OptArray)
  | [] => Except.ok []
  | f :: rest => do
    let g ← processOne ndim autoscale f
    let gs ← processFrames ndim autoscale rest
    pure (g :: gs)

/-- Outcome of one `export` call: the stream configuration taken from the
first frame (if any frame arrived), the frames handed to the encoder, the
error that aborted the call (if any), and whether `output.close()` ran.
The source calls `output.close()` only on line 96, after the loop, with no
`try`/`finally`: an exception propagates with the encoder still open. -/
structure ExportResult where
  config : Option StreamConfig
  encoded : List OptArray
  error : Option PyErr
  closed : Bool

/-- Source `export`, lines 46-96 (named `exportSeq` because `export` is a
Lean keyword): configure the stream from the first frame, record `ndim`,
canonicalize/gate/autoscale every frame, and close the output only after
the loop completes without an exception. -/
def exportSeq (sequence : List NDArray) (rate : ℕ) (bitrate width height : Option ℕ)
    (autoscale : Bool) : ExportResult :=
  match sequence with
  | [] => { config := none, encoded := [], error := none, closed := true }
  | first :: _ =>
    let cfg := setupConfig first rate bitrate width height
    match processFrames first.shape.length autoscale sequence with
    | Except.ok gs => { config := some cfg, encoded := gs, error := none, closed := true }
    | Except.error e => { config := some cfg, encoded := [], error := some e, closed := false }

/-- Source `wavelength_to_rgb`, lines 262-316: seven-band piecewise spectral
approximation.  Branch selection and the linear ramps are exact rational
arithmetic; the gamma correction `** gamma` is a real power; each channel is
multiplied by 255 and truncated to an 8-bit value. -/
noncomputable def wavelength_to_rgb (wavelength : ℚ) (gamma : ℝ) : ℕ × ℕ × ℕ :=
  if 380 ≤ wavelength ∧ wavelength ≤ 440 then
    (npUint8R (((((-(wavelength - 440) / (440 - 380)) * (3/10 + (7/10) * (wavelength - 380) / (440 - 380)) : ℚ)) : ℝ) ^ gamma * 255),
     npUint8R (0 * 255),
     npUint8R ((((1 * (3/10 + (7/10) * (wavelength - 380) / (440 - 380)) : ℚ)) : ℝ) ^ gamma * 255))
  else if 440 ≤ wavelength ∧ wavelength ≤ 490 then
    (npUint8R (0 * 255),
     npUint8R ((((wavelength - 440) / (490 - 440) : ℚ) : ℝ) ^ gamma * 255),
     npUint8R (1 * 255))
  else if 490 ≤ wavelength ∧ wavelength ≤ 510 then
    (npUint8R (0 * 255),
     npUint8R (1 * 255),
     npUint8R (((-(wavelength - 510) / (510 - 490) : ℚ) : ℝ) ^ gamma * 255))
  else if 510 ≤ wavelength ∧ wavelength ≤ 580 then
    (npUint8R ((((wavelength - 510) / (580 - 510) : ℚ) : ℝ) ^ gamma * 255),
     npUint8R (1 * 255),
     npUint8R (0 * 255))
  else if 580 ≤ wavelength ∧ wavelength ≤ 645 then
    (npUint8R (1 * 255),
     npUint8R (((-(wavelength - 645) / (645 - 580) : ℚ) : ℝ) ^ gamma * 255),
     npUint8R (0 * 255))
  else if 645 ≤ wavelength ∧ wavelength ≤ 750 then
    (npUint8R ((((1 * (3/10 + (7/10) * (750 - wavelength) / (750 - 645)) : ℚ)) : ℝ) ^ gamma * 255),
     npUint8R (0 * 255),
     npUint8R (0 * 255))
  else
    (npUint8R (0 * 255), npUint8R (0 * 255), npUint8R (0 * 255))

/-- The `wavelengths` argument of `to_rgb`: `None`, a single number, or a
list of numbers. -/
inductive WavelengthsArg where
  | none
  | scalar (w : ℚ)
  | list (ws : List ℚ)

/-- Source `to_rgb`, line 339: `image.ndim > 2 and image.shape[0] < 5`. -/
def is_multichannel (image : NDArray) : Bool :=
  decide (2 < image.shape.length) && decide (image.shape.headI < 5)

/-- Source `to_rgb`, lines 340-344: channel count. -/
def to_rgb_channels (image : NDArray) : ℕ :=
  if is_multichannel image then image.shape.headI else 1

/-- Source `to_rgb`, lines 342-345: shape of the RGB result,
`image.shape[1:] + (3,)` for multichannel, `image.shape + (3,)` otherwise. -/
def to_rgb_shape_rgb (image : NDArray) : List ℕ :=
  if is_multichannel image then image.shape.tail ++ [3] else image.shape ++ [3]

/-- Source `to_rgb`, line 349: the default palette Green, Magenta, Blue,
Red. -/
def defaultPalette : List (ℕ × ℕ × ℕ) :=
  [(0, 255, 0), (255, 0, 255), (0, 0, 255), (255, 0, 0)]

/-- Source `to_rgb`, lines 347-354: the per-channel tints.  `None` takes a
prefix of the default palette; a list maps `wavelength_to_rgb` over its
first `channels` entries; a bare number (whose slicing raises the caught
`TypeError`) yields a single tint. -/
noncomputable def to_rgb_rgbs (image : NDArray) (wavelengths : WavelengthsArg) :
    List (ℕ × ℕ × ℕ) :=
  match wavelengths with
  | WavelengthsArg.none => defaultPalette.take (to_rgb_channels image)
  | WavelengthsArg.list ws =>
    (ws.take (to_rgb_channels image)).map (fun nm => wavelength_to_rgb nm 0.8)
  | WavelengthsArg.scalar w => [wavelength_to_rgb w 0.8]

/-- Component `c` of an RGB tint, as the numpy broadcast
`np.multiply(image_rgb, rgb)` reads it along the last axis. -/
def rgbComp (rgb : ℕ × ℕ × ℕ) (c : ℕ) : ℚ :=
  match c with
  | 0 => rgb.1
  | 1 => rgb.2.1
  | _ => rgb.2.2

/-- Split a multi-index of the RGB result into its spatial part and its
color component (the last entry). -/
def splitLast (idx : List ℕ) : Option (List ℕ × ℕ) :=
  match idx.getLast? with
  | some c => some (idx.dropLast, c)
  | none => none

/-- Source `image[i]`: channel `i` of a multichannel image (leading axis
fixed). -/
def sliceChannel (image : NDArray) (i : ℕ) : NDArray :=
  { shape := image.shape.tail
    data := fun idx => image.data (i :: idx)
    dtype := image.dtype }

/-- Source `_monochannel_to_rgb`, lines 358-362: normalize the channel to
[0, 1], broadcast over three color components, scale by the tint, truncate
to uint8.  Value at the result index `spatial ++ [c]`. -/
def monoData (img : NDArray) (rgb : ℕ × ℕ × ℕ) : List ℕ → ℕ :=
  fun idx =>
    match splitLast idx with
    | some (sp, c) => npUint8Q ((_normalize img).data sp * rgbComp rgb c)
    | none => 0

/-- Source `to_rgb`, lines 365-367: the uint16 accumulator
`result += _monochannel_to_rgb(image[i], rgbs[i])` over all channels (the
sums stay below 4 × 255, far from the uint16 modulus). -/
def to_rgb_accum (image : NDArray) (rgbs : List (ℕ × ℕ × ℕ)) : List ℕ → ℕ :=
  fun idx =>
    (List.range (to_rgb_channels image)).foldl
      (fun acc i => acc + monoData (sliceChannel image i) (rgbs.getD i (0, 0, 0)) idx) 0

/-- Source `to_rgb`, line 372: `norm = result.max()` over the accumulated
RGB image — the divisor of the final normalization, taken with no zero
guard. -/
def to_rgb_norm (image : NDArray) (rgbs : List (ℕ × ℕ × ℕ)) : ℕ :=
  listMaxN ((indicesOf (to_rgb_shape_rgb image)).map (to_rgb_accum image rgbs))

/-- An RGB image as `to_rgb` returns it: 8-bit (or uint16 when the final
downsampling is skipped) entries, `none` marking the NaN pixels that the
unguarded division `result / result.max()` produces when the maximum is
zero. -/
structure RGBResult where
  shape : List ℕ
  data : List ℕ → Option ℕ

/-- Source `to_rgb`, lines 318-375.  After the tint-count check, the
multichannel branch accumulates the tinted channels and (when `normalize`)
rescales by the accumulated maximum — dividing by zero when the maximum is
zero.  The single-channel branch executes `_monochannel_to_rgb(image,
rgbs[i])` where the loop variable `i` was only ever assigned inside the
multichannel branch's `for` loop, so Python raises `UnboundLocalError`
before anything is computed. -/
noncomputable def to_rgb (image : NDArray) (wavelengths : WavelengthsArg)
    (normalize : Bool) : Except PyErr RGBResult :=
  if to_rgb_channels image = (to_rgb_rgbs image wavelengths).length then
    if is_multichannel image then
      if normalize then
        Except.ok
          { shape := to_rgb_shape_rgb image
            data := fun idx =>
              if to_rgb_norm image (to_rgb_rgbs image wavelengths) = 0 then none
              else some (npUint8Q
                ((to_rgb_accum image (to_rgb_rgbs image wavelengths) idx : ℚ) /
                  (to_rgb_norm image (to_rgb_rgbs image wavelengths) : ℚ) * 255)) }
      else
        Except.ok
          { shape := to_rgb_shape_rgb image
            data := fun idx => some (to_rgb_accum image (to_rgb_rgbs image wavelengths) idx) }
    else
      Except.error PyErr.unboundLocalError
  else
    Except.error PyErr.insufficientTints

/-! ### Helper lemmas -/

theorem le_listMaxQ : ∀ (l : List ℚ) (x : ℚ), x ∈ l → x ≤ listMaxQ l
  | [], x, hx => absurd hx (List.not_mem_nil x)
  | [y], x, hx => by
    rw [List.mem_singleton] at hx
    simp [listMaxQ, hx]
  | y :: z :: rest, x, hx => by
    rcases List.mem_cons.mp hx with h | h
    · subst h
      exact le_max_left _ _
    · exact le_trans (le_listMaxQ (z :: rest) x h) (le_max_right _ _)

theorem listMinQ_le : ∀ (l : List ℚ) (x : ℚ), x ∈ l → listMinQ l ≤ x
  | [], x, hx => absurd hx (List.not_mem_nil x)
  | [y], x, hx => by
    rw [List.mem_singleton] at hx
    simp [listMinQ, hx]
  | y :: z :: rest, x, hx => by
    rcases List.mem_cons.mp hx with h | h
    · subst h
      exact min_le_left _ _
    · exact le_trans (min_le_right _ _) (listMinQ_le (z :: rest) x h)

theorem listMaxN_eq_zero : ∀ (l : List ℕ), (∀ x ∈ l, x = 0) → listMaxN l = 0
  | [], _ => rfl
  | [y], h => h y (List.mem_singleton.mpr rfl)
  | y :: z :: rest, h => by
    have hy : y = 0 := h y (List.mem_cons_self y _)
    have hr : listMaxN (z :: rest) = 0 :=
      listMaxN_eq_zero (z :: rest) (fun x hx => h x (List.mem_cons_of_mem y hx))
    simp [listMaxN, hy, hr]

/-- On a flat array (`max = min`) every in-range value equals the minimum. -/
theorem flat_data_eq_amin (img : NDArray) (h : amax img = amin img)
    (sp : List ℕ) (hsp : sp ∈ indicesOf img.shape) : img.data sp = amin img := by
  have hmem : img.data sp ∈ values img := List.mem_map_of_mem img.data hsp
  exact le_antisymm (h ▸ le_listMaxQ (values img) _ hmem) (listMinQ_le (values img) _ hmem)

/-- On a flat array `_normalize` maps every in-range entry to `0`. -/
theorem normalize_flat_data_zero (img : NDArray) (h : amax img = amin img)
    (sp : List ℕ) (hsp : sp ∈ indicesOf img.shape) : (_normalize img).data sp = 0 := by
  simp only [_normalize]
  rw [flat_data_eq_amin img h sp hsp, sub_self, zero_div]

theorem foldl_add_eq_zero {α : Type} (l : List α) (f : α → ℕ) (h : ∀ i ∈ l, f i = 0) :
    l.foldl (fun acc i => acc + f i) 0 = 0 := by
  have aux : ∀ (l' : List α), (∀ i ∈ l', f i = 0) → ∀ a : ℕ,
      l'.foldl (fun acc i => acc + f i) a = a := by
    intro l'
    induction l' with
    | nil => intro _ a; rfl
    | cons x xs ih =>
      intro h' a
      have hx : f x = 0 := h' x (List.mem_cons_self x xs)
      have := ih (fun i hi => h' i (List.mem_cons_of_mem x hi)) (a + f x)
      simpa [hx] using this
  exact aux l h 0

theorem splitLast_concat (sp : List ℕ) (c : ℕ) : splitLast (sp ++ [c]) = some (sp, c) := by
  simp [splitLast, List.getLast?_concat, List.dropLast_concat]

theorem mem_indicesOf_append (ds : List ℕ) (k : ℕ) (idx : List ℕ)
    (h : idx ∈ indicesOf (ds ++ [k])) :
    ∃ sp c, sp ∈ indicesOf ds ∧ c < k ∧ idx = sp ++ [c] := by
  induction ds generalizing idx with
  | nil =>
    simp only [List.nil_append, indicesOf, List.mem_flatMap, List.mem_map,
      List.mem_range] at h
    obtain ⟨i, hik, t, ht, rfl⟩ := h
    refine ⟨[], i, ?_, hik, ?_⟩
    · simp [indicesOf]
    · simp only [indicesOf, List.mem_singleton] at ht
      rw [ht]
      rfl
  | cons d ds ih =>
    simp only [List.cons_append, indicesOf, List.mem_flatMap, List.mem_map,
      List.mem_range] at h
    obtain ⟨i, hid, t, ht, rfl⟩ := h
    obtain ⟨sp, c, hsp, hck, rfl⟩ := ih t ht
    refine ⟨i :: sp, c, ?_, hck, rfl⟩
    simp only [indicesOf, List.mem_flatMap, List.mem_map, List.mem_range]
    exact ⟨i, hid, sp, hsp, rfl⟩

/-- On a flat channel, every entry of the tinted monochannel image is `0`,
whatever the tint. -/
theorem monoData_flat_zero (img : NDArray) (rgb : ℕ × ℕ × ℕ)
    (h : amax img = amin img) (sp : List ℕ) (hsp : sp ∈ indicesOf img.shape)
    (c : ℕ) : monoData img rgb (sp ++ [c]) = 0 := by
  simp only [monoData, splitLast_concat]
  rw [normalize_flat_data_zero img h sp hsp, zero_mul]
  simp [npUint8Q]

theorem roll_unroll_0 (img : NDArray) (a b c : ℕ) (hs : img.shape = [a, b, c]) :
    rollaxisFromLast3 (rollaxis3 img 0) 0 = img := by
  obtain ⟨s, d, t⟩ := img
  simp only at hs
  subst hs
  refine NDArray.ext ?_ ?_ ?_
  · rfl
  · funext idx
    rcases idx with _ | ⟨i, _ | ⟨j, _ | ⟨l, _ | ⟨r, rest⟩⟩⟩⟩ <;> rfl
  · rfl

theorem roll_unroll_1 (img : NDArray) (a b c : ℕ) (hs : img.shape = [a, b, c]) :
    rollaxisFromLast3 (rollaxis3 img 1) 1 = img := by
  obtain ⟨s, d, t⟩ := img
  simp only at hs
  subst hs
  refine NDArray.ext ?_ ?_ ?_
  · rfl
  · funext idx
    rcases idx with _ | ⟨i, _ | ⟨j, _ | ⟨l, _ | ⟨r, rest⟩⟩⟩⟩ <;> rfl
  · rfl

theorem roll_unroll_2 (img : NDArray) (a b c : ℕ) (hs : img.shape = [a, b, c]) :
    rollaxisFromLast3 (rollaxis3 img 2) 2 = img := by
  obtain ⟨s, d, t⟩ := img
  simp only at hs
  subst hs
  refine NDArray.ext ?_ ?_ ?_
  · rfl
  · funext idx
    rcases idx with _ | ⟨i, _ | ⟨j, _ | ⟨l, _ | ⟨r, rest⟩⟩⟩⟩ <;> rfl
  · rfl

/-! ### Claim theorems -/

/-- C1: the claim says `to_rgb` on a single-channel image with
`wavelengths=None`, `normalize=True` succeeds with the default green tint.
The code instead evaluates `rgbs[i]` in the single-channel branch, where the
loop variable `i` was only assigned inside the multichannel branch's `for`
loop, so Python raises `UnboundLocalError` for every grayscale input.  The
failing input here is the 2×2 image [[0, 1], [2, 3]]. -/
theorem to_rgb_grayscale_unbound_local :
    to_rgb ⟨[2, 2], fun idx => (2 * idx.headI + idx.tail.headI : ℚ), Dtype.uint8⟩
      WavelengthsArg.none true = Except.error PyErr.unboundLocalError := rfl

/-- C2 counterexample: on the flat 2×2 frame of constant value 7, the
autoscale normalization inside `export` divides by `img.max() - img.min()`
with no guard: the divisor is 0, not 1, and the frame handed to the encoder
consists of NaN pixels (`none`), refuting the claim that both normalization
paths treat a flat array's denominator as 1. -/
theorem export_autoscale_flat_denominator_zero :
    exportAutoscaleDenom ⟨[2, 2], fun _ => 7, Dtype.float64⟩ = 0 ∧
    exportAutoscaleDenom ⟨[2, 2], fun _ => 7, Dtype.float64⟩ ≠ 1 ∧
    (exportSeq [⟨[2, 2], fun _ => 7, Dtype.float64⟩] 30 none none none true).encoded.map
      (fun fr => fr.data [0, 0, 0]) = [none] := by
  have hd : exportAutoscaleDenom (expandGray ⟨[2, 2], fun _ => 7, Dtype.float64⟩) = 0 := by
    norm_num [exportAutoscaleDenom, amax, amin, values, indicesOf, listMaxQ, listMinQ,
      expandGray]
  have hd2 : exportAutoscaleDenom ⟨[2, 2], fun _ => 7, Dtype.float64⟩ = 0 := by
    norm_num [exportAutoscaleDenom, amax, amin, values, indicesOf, listMaxQ, listMinQ]
  refine ⟨hd2, by rw [hd2]; norm_num, ?_⟩
  simp [exportSeq, processFrames, processOne, normalizeShape, autoscaleFrame, hd,
    Bind.bind, Except.bind, Pure.pure, Except.pure]

/-- C2 (amended): the flat-image guard exists only in `_normalize`: there
the denominator is taken as 1 and the output is uniformly 0, with no
division by zero.  (`export`'s inline autoscale path has no such guard, see
the counterexample.) -/
theorem normalize_flat_guard_uniform (img : NDArray) (h : amax img = amin img) :
    normalizeDenom img = 1 ∧
    ∀ sp ∈ indicesOf img.shape, (_normalize img).data sp = 0 := by
  constructor
  · simp [normalizeDenom, sub_eq_zero_of_eq h]
  · intro sp hsp
    exact normalize_flat_data_zero img h sp hsp

/-- C2 witness: the flat hypothesis holds for the constant-7 2×2 frame and
the amended statement follows there. -/
theorem normalize_flat_guard_uniform_witness :
    amax ⟨[2, 2], fun _ => 7, Dtype.float64⟩ = amin ⟨[2, 2], fun _ => 7, Dtype.float64⟩ ∧
    (normalizeDenom ⟨[2, 2], fun _ => 7, Dtype.float64⟩ = 1 ∧
      ∀ sp ∈ indicesOf ([2, 2] : List ℕ),
        (_normalize ⟨[2, 2], fun _ => 7, Dtype.float64⟩).data sp = 0) :=
  ⟨by decide, normalize_flat_guard_uniform ⟨[2, 2], fun _ => 7, Dtype.float64⟩ (by decide)⟩

/-- C3 counterexample: on a rank-4 frame the export aborts with the shape
error, and the encoder is NOT closed — `output.close()` only runs after the
loop, with no `try`/`finally` — refuting the claim that the encoder is
closed before the error propagates. -/
theorem export_rank4_error_encoder_not_closed :
    (exportSeq [⟨[2, 2, 2, 2], fun _ => 0, Dtype.float64⟩] 30 none none none true).error
      = some PyErr.shapeError ∧
    ¬ ((exportSeq [⟨[2, 2, 2, 2], fun _ => 0, Dtype.float64⟩] 30 none none none true).closed
      = true) :=
  ⟨rfl, by decide⟩

/-- C3 (amended): whenever `export` aborts with an error on any frame, the
encoder resource is left open (never closed before the error propagates);
it is closed only when the whole sequence is processed without error. -/
theorem export_error_leaves_encoder_open (sequence : List NDArray) (rate : ℕ)
    (bitrate width height : Option ℕ) (autoscale : Bool) (e : PyErr)
    (h : (exportSeq sequence rate bitrate width height autoscale).error = some e) :
    (exportSeq sequence rate bitrate width height autoscale).closed = false := by
  cases sequence with
  | nil => simp [exportSeq] at h
  | cons f rest =>
    cases hp : processFrames f.shape.length autoscale (f :: rest) with
    | ok gs => simp [exportSeq, hp] at h
    | error e2 => simp [exportSeq, hp]

/-- C3 witness: the amended statement at the concrete rank-4 frame. -/
theorem export_error_leaves_encoder_open_witness :
    (exportSeq [⟨[2, 2, 2, 2], fun _ => 0, Dtype.float64⟩] 30 none none none true).error
      = some PyErr.shapeError ∧
    (exportSeq [⟨[2, 2, 2, 2], fun _ => 0, Dtype.float64⟩] 30 none none none true).closed
      = false :=
  ⟨rfl, export_error_leaves_encoder_open _ 30 none none none true PyErr.shapeError rfl⟩

/-- C4: the claim says a uint8 frame is accepted when autoscale is
disabled.  The code's test `img.dtype is not np.uint8` compares a dtype
instance against a type object by identity and is therefore always true, so
`export` raises the TypeMismatch error for EVERY frame when autoscale is
off — including this uint8 frame [[0, 1], [2, 3]]. -/
theorem export_uint8_no_autoscale_type_mismatch :
    (exportSeq [⟨[2, 2], fun idx => ((2 * idx.headI + idx.tail.headI : ℕ) : ℚ), Dtype.uint8⟩]
      30 none none none false).error = some PyErr.typeMismatch := rfl

/-- C5 counterexample: with `width = 100` and a first frame of shape (2, 3),
the code configures `height = 100 * 2 // 3 = 66`, while rounding
`100 × 2 / 3` gives 67 — the claim's `round` formula does not match the
code's floor division. -/
theorem derived_height_not_round :
    ¬ (((setupConfig ⟨[2, 3], fun _ => 0, Dtype.uint8⟩ 30 none (some 100) none).height : ℤ)
       = round ((100 * (2 : ℚ)) / 3)) := by
  have h1 : (setupConfig ⟨[2, 3], fun _ => 0, Dtype.uint8⟩ 30 none (some 100) none).height
      = 66 := rfl
  rw [h1]
  norm_num [round_eq]

/-- C5 (amended): when only `width` is given, the derived stream height is
the FLOOR of width × original_height / original_width (Python `//`), not
the rounded value. -/
theorem derived_height_floor (img : NDArray) (w rate : ℕ) (bitrate : Option ℕ)
    (s0 s1 : ℕ) (rest : List ℕ) (hs : img.shape = s0 :: s1 :: rest) (h1 : 0 < s1) :
    (setupConfig img rate bitrate (some w) none).height = ⌊((w : ℚ) * s0) / s1⌋₊ := by
  have hh : (setupConfig img rate bitrate (some w) none).height = w * s0 / s1 := by
    simp [setupConfig, hs]
  rw [hh]
  have hcast : ((w : ℚ) * s0) / s1 = ((w * s0 : ℕ) : ℚ) / ((s1 : ℕ) : ℚ) := by
    push_cast
    ring
  rw [hcast]
  exact (Nat.floor_div_eq_div (α := ℚ) (w * s0) s1).symm

/-- C5 witness: the amended floor formula at width 100 and first-frame
shape (2, 3). -/
theorem derived_height_floor_witness :
    (⟨[2, 3], fun _ => 0, Dtype.uint8⟩ : NDArray).shape = 2 :: 3 :: [] ∧ 0 < 3 ∧
    (setupConfig ⟨[2, 3], fun _ => 0, Dtype.uint8⟩ 30 none (some 100) none).height
      = ⌊((100 : ℚ) * 2) / 3⌋₊ :=
  ⟨rfl, by decide,
    derived_height_floor ⟨[2, 3], fun _ => 0, Dtype.uint8⟩ 100 30 none 2 3 [] rfl (by decide)⟩

/-- C10: with derived geometry and bitrate, `export` reads the raw first
and second axes of the first frame before any shape canonicalization: a 3-D
first frame of shape (3, H, W) configures stream height 3, stream width H,
and a bitrate computed from 3 × H (not from the spatial dimensions H × W). -/
theorem export_raw_axes_before_canonicalization (H W rate : ℕ) (d : List ℕ → ℚ)
    (t : Dtype) (rest : List NDArray) (autoscale : Bool) :
    (exportSeq (⟨[3, H, W], d, t⟩ :: rest) rate none none none autoscale).config
      = some { bit_rate := some (3 * H * 8 * 3 * rate), width := H, height := 3 } := by
  cases hp : processFrames 3 autoscale (⟨[3, H, W], d, t⟩ :: rest) with
  | ok gs => simp [exportSeq, hp, setupConfig, _estimate_bitrate]
  | error e => simp [exportSeq, hp, setupConfig, _estimate_bitrate]

theorem wavelength_to_rgb_550_eq :
    wavelength_to_rgb 550 0.8 =
      (npUint8R (((4 / 7 : ℚ) : ℝ) ^ (0.8 : ℝ) * 255),
       npUint8R (1 * 255), npUint8R (0 * 255)) := by
  unfold wavelength_to_rgb
  norm_num

theorem w550_green : (wavelength_to_rgb 550 0.8).2.1 = 255 := by
  rw [wavelength_to_rgb_550_eq]
  norm_num [npUint8R]

theorem w550_blue : (wavelength_to_rgb 550 0.8).2.2 = 0 := by
  rw [wavelength_to_rgb_550_eq]
  norm_num [npUint8R]

theorem w550_red_lb : 145 ≤ (wavelength_to_rgb 550 0.8).1 := by
  rw [wavelength_to_rgb_550_eq]
  simp only [npUint8R]
  apply Nat.le_floor
  have h1 : ((4 / 7 : ℚ) : ℝ) = (4 / 7 : ℝ) := by norm_num
  rw [h1]
  have h2 : (4 / 7 : ℝ) ^ (1 : ℝ) ≤ (4 / 7 : ℝ) ^ (0.8 : ℝ) :=
    Real.rpow_le_rpow_of_exponent_ge (by norm_num) (by norm_num) (by norm_num)
  rw [Real.rpow_one] at h2
  push_cast
  nlinarith [h2]

theorem w550_red_ub : (wavelength_to_rgb 550 0.8).1 ≤ 255 := by
  rw [wavelength_to_rgb_550_eq]
  simp only [npUint8R]
  have h2 : ((4 / 7 : ℚ) : ℝ) ^ (0.8 : ℝ) ≤ 1 :=
    Real.rpow_le_one (by norm_num) (by norm_num) (by norm_num)
  have h1 : ((4 / 7 : ℚ) : ℝ) ^ (0.8 : ℝ) * 255 ≤ (255 : ℝ) := by nlinarith
  calc ⌊((4 / 7 : ℚ) : ℝ) ^ (0.8 : ℝ) * 255⌋₊ ≤ ⌊(255 : ℝ)⌋₊ := Nat.floor_le_floor h1
    _ = 255 := by norm_num

theorem w2r_out_300 : wavelength_to_rgb 300 0.8 = (0, 0, 0) := by
  unfold wavelength_to_rgb
  norm_num [npUint8R]

theorem w2r_out_800 : wavelength_to_rgb 800 0.8 = (0, 0, 0) := by
  unfold wavelength_to_rgb
  norm_num [npUint8R]

/-- C6 counterexample: `wavelength_to_rgb(550)` falls in the 510–580 band
where the red channel ramps UP: R = ⌊255 · (4/7)^0.8⌋ ≥ 145 out of 255,
which is not "near 0" under any reasonable reading. -/
theorem wavelength550_red_not_near_zero :
    100 < (wavelength_to_rgb 550 0.8).1 :=
  lt_of_lt_of_le (by norm_num) w550_red_lb

/-- C6 (amended): `wavelength_to_rgb(550)` yields G = 255 and B = 0, but
R = ⌊255 · (4/7)^0.8⌋ lies between 145 and 255 (≈ 163), not near 0; the
out-of-range inputs 300 and 800 both yield (0, 0, 0). -/
theorem wavelength550_green_full_red_large :
    (wavelength_to_rgb 550 0.8).2.1 = 255 ∧ (wavelength_to_rgb 550 0.8).2.2 = 0 ∧
    145 ≤ (wavelength_to_rgb 550 0.8).1 ∧ (wavelength_to_rgb 550 0.8).1 ≤ 255 ∧
    wavelength_to_rgb 300 0.8 = (0, 0, 0) ∧ wavelength_to_rgb 800 0.8 = (0, 0, 0) :=
  ⟨w550_green, w550_blue, w550_red_lb, w550_red_ub, w2r_out_300, w2r_out_800⟩

/-- C7: for every rank-3 frame with exactly one axis of length 3, the
shape canonicalization of `export` succeeds, moves the color axis to the
last position while keeping the other two axes in their original relative
order (`eraseIdx` drops the color axis, preserving order), and rolling the
last axis back to the original color-axis position recovers the frame
exactly. -/
theorem rank3_color_axis_round_trip (img : NDArray) (a b c : ℕ)
    (hs : img.shape = [a, b, c]) (hcount : (([a, b, c] : List ℕ).count 3) = 1) :
    ∃ out, normalizeShape 3 img = Except.ok out ∧
      out.shape = [a, b, c].eraseIdx (firstIndexOf3 [a, b, c]) ++ [3] ∧
      rollaxisFromLast3 out (firstIndexOf3 [a, b, c]) = img := by
  by_cases ha : a = 3 <;> by_cases hb : b = 3 <;> by_cases hc : c = 3
  · subst ha; subst hb; subst hc
    simp [List.count_cons] at hcount
  · subst ha; subst hb
    simp [List.count_cons, hc] at hcount
  · subst ha; subst hc
    simp [List.count_cons, hb] at hcount
  · subst ha
    refine ⟨rollaxis3 img 0, ?_, ?_, ?_⟩
    · simp [normalizeShape, hs, firstIndexOf3, List.count_cons, hb, hc]
    · simp [rollaxis3, hs, firstIndexOf3, List.eraseIdx]
    · simpa [firstIndexOf3] using roll_unroll_0 img 3 b c hs
  · subst hb; subst hc
    simp [List.count_cons, ha] at hcount
  · subst hb
    refine ⟨rollaxis3 img 1, ?_, ?_, ?_⟩
    · simp [normalizeShape, hs, firstIndexOf3, List.count_cons, ha, hc]
    · simp [rollaxis3, hs, firstIndexOf3, ha, List.eraseIdx]
    · simpa [firstIndexOf3, ha] using roll_unroll_1 img a 3 c hs
  · subst hc
    refine ⟨rollaxis3 img 2, ?_, ?_, ?_⟩
    · simp [normalizeShape, hs, firstIndexOf3, List.count_cons, ha, hb]
    · simp [rollaxis3, hs, firstIndexOf3, ha, hb, List.eraseIdx]
    · simpa [firstIndexOf3, ha, hb] using roll_unroll_2 img a b 3 hs
  · simp [List.count_cons, ha, hb, hc] at hcount

/-- C7 witness: the round trip at the concrete frame of shape (2, 3, 4). -/
theorem rank3_color_axis_round_trip_witness :
    (⟨[2, 3, 4], fun idx => (idx.headI : ℚ), Dtype.uint8⟩ : NDArray).shape = [2, 3, 4] ∧
    (([2, 3, 4] : List ℕ).count 3 = 1) ∧
    (∃ out, normalizeShape 3 ⟨[2, 3, 4], fun idx => (idx.headI : ℚ), Dtype.uint8⟩
        = Except.ok out ∧
      out.shape = [2, 3, 4].eraseIdx (firstIndexOf3 [2, 3, 4]) ++ [3] ∧
      rollaxisFromLast3 out (firstIndexOf3 [2, 3, 4])
        = ⟨[2, 3, 4], fun idx => (idx.headI : ℚ), Dtype.uint8⟩) :=
  ⟨rfl, by decide,
    rank3_color_axis_round_trip ⟨[2, 3, 4], fun idx => (idx.headI : ℚ), Dtype.uint8⟩
      2 3 4 rfl (by decide)⟩

/-- C8: `to_rgb` on a multichannel image with fewer supplied wavelengths
than channels fails with the InsufficientTints error (the source's
`IndexError('Not enough wavelength values to build rgb image')`). -/
theorem to_rgb_insufficient_tints (image : NDArray) (ws : List ℚ) (nrm : Bool)
    (hm : is_multichannel image = true)
    (hlt : ws.length < image.shape.headI) :
    to_rgb image (WavelengthsArg.list ws) nrm = Except.error PyErr.insufficientTints := by
  unfold to_rgb
  rw [if_neg]
  intro hEq
  simp [to_rgb_rgbs, to_rgb_channels, hm, List.length_take] at hEq
  omega

/-- C8 witness: a 2-channel image with a single supplied wavelength. -/
theorem to_rgb_insufficient_tints_witness :
    is_multichannel ⟨[2, 4, 4], fun _ => 0, Dtype.uint8⟩ = true ∧
    ([(500 : ℚ)].length < ([2, 4, 4] : List ℕ).headI) ∧
    to_rgb ⟨[2, 4, 4], fun _ => 0, Dtype.uint8⟩ (WavelengthsArg.list [500]) true
      = Except.error PyErr.insufficientTints :=
  ⟨by decide, by decide,
    to_rgb_insufficient_tints ⟨[2, 4, 4], fun _ => 0, Dtype.uint8⟩ [500] true
      (by decide) (by decide)⟩

/-- C9: for a multichannel image all of whose channels are flat, with
`normalize=True` (and a tint list that passes the count check), the
accumulated result is all zeros, so the divisor `result.max()` of the final
unguarded normalization `result / norm * 255` is 0 and every pixel of the
returned image is NaN (`none`) — the output is not a well-defined image. -/
theorem to_rgb_flat_channels_divisor_zero (image : NDArray) (wl : WavelengthsArg)
    (hm : is_multichannel image = true)
    (hc : to_rgb_channels image = (to_rgb_rgbs image wl).length)
    (hflat : ∀ i, i < to_rgb_channels image →
      amax (sliceChannel image i) = amin (sliceChannel image i)) :
    to_rgb_norm image (to_rgb_rgbs image wl) = 0 ∧
    ∃ out, to_rgb image wl true = Except.ok out ∧ ∀ idx, out.data idx = none := by
  have hsr : to_rgb_shape_rgb image = image.shape.tail ++ [3] := by
    simp [to_rgb_shape_rgb, hm]
  have hnorm : to_rgb_norm image (to_rgb_rgbs image wl) = 0 := by
    unfold to_rgb_norm
    apply listMaxN_eq_zero
    intro x hx
    rcases List.mem_map.mp hx with ⟨idx, hidx, rfl⟩
    rw [hsr] at hidx
    obtain ⟨sp, cc, hsp, hck, rfl⟩ := mem_indicesOf_append _ _ _ hidx
    unfold to_rgb_accum
    apply foldl_add_eq_zero
    intro i hi
    exact monoData_flat_zero (sliceChannel image i) _
      (hflat i (List.mem_range.mp hi)) sp hsp cc
  refine ⟨hnorm,
    ⟨{ shape := to_rgb_shape_rgb image,
       data := fun idx =>
         if to_rgb_norm image (to_rgb_rgbs image wl) = 0 then none
         else some (npUint8Q ((to_rgb_accum image (to_rgb_rgbs image wl) idx : ℚ) /
           (to_rgb_norm image (to_rgb_rgbs image wl) : ℚ) * 255)) }, ?_, ?_⟩⟩
  · unfold to_rgb
    rw [if_pos hc, if_pos hm, if_pos rfl]
  · intro idx
    simp [hnorm]

/-- C9 witness: the 2-channel image of shape (2, 2, 2) whose channels are
the constant planes 5 and 9, with the default palette. -/
theorem to_rgb_flat_channels_divisor_zero_witness :
    is_multichannel ⟨[2, 2, 2], fun idx => if idx.headI = 0 then 5 else 9, Dtype.uint16⟩
      = true ∧
    to_rgb_channels ⟨[2, 2, 2], fun idx => if idx.headI = 0 then 5 else 9, Dtype.uint16⟩
      = (to_rgb_rgbs ⟨[2, 2, 2], fun idx => if idx.headI = 0 then 5 else 9, Dtype.uint16⟩
          WavelengthsArg.none).length ∧
    (∀ i, i < to_rgb_channels
        ⟨[2, 2, 2], fun idx => if idx.headI = 0 then 5 else 9, Dtype.uint16⟩ →
      amax (sliceChannel
          ⟨[2, 2, 2], fun idx => if idx.headI = 0 then 5 else 9, Dtype.uint16⟩ i)
        = amin (sliceChannel
          ⟨[2, 2, 2], fun idx => if idx.headI = 0 then 5 else 9, Dtype.uint16⟩ i)) ∧
    (to_rgb_norm ⟨[2, 2, 2], fun idx => if idx.headI = 0 then 5 else 9, Dtype.uint16⟩
        (to_rgb_rgbs ⟨[2, 2, 2], fun idx => if idx.headI = 0 then 5 else 9, Dtype.uint16⟩
          WavelengthsArg.none) = 0 ∧
      ∃ out, to_rgb ⟨[2, 2, 2], fun idx => if idx.headI = 0 then 5 else 9, Dtype.uint16⟩
          WavelengthsArg.none true = Except.ok out ∧ ∀ idx, out.data idx = none) :=
  ⟨by decide, by decide, by decide,
    to_rgb_flat_channels_divisor_zero
      ⟨[2, 2, 2], fun idx => if idx.headI = 0 then 5 else 9, Dtype.uint16⟩
      WavelengthsArg.none (by decide) (by decide) (by decide)⟩

end PimsDisplay
